import Mathlib

/-!
Verification development for the Pine Ridge WebRTC interoperability test
driver (publisher/subscriber browser orchestration with human verification).

The definitions below are a shallow embedding of the Python sources:
  src/automation/browser_controller.py
  src/automation/chrome_publisher.py
  src/automation/safari_subscriber.py
  src/automation/test_executor.py
  src/utils/verification.py
  src/mcp/puppeteer_mcp_client.py
External effects (the Selenium driver, the vision model, operator input,
the live page) are passed in as explicit data: each I/O step is a
parameter recording what the external world answered, and fallible steps
are recorded as a StepOutcome (normal value or raised exception).
-/

set_option maxRecDepth 8000

/-- Python string containment helper: does pat occur as a contiguous
substring starting at the head of hay. -/
def matchesAt : List Char → List Char → Bool
  | _, [] => true
  | [], _ :: _ => false
  | a :: as, b :: bs => a == b && matchesAt as bs

/-- Python string containment helper: does pat occur anywhere in hay. -/
def containsSub : List Char → List Char → Bool
  | hay, pat =>
    if matchesAt hay pat then true
    else match hay with
      | [] => false
      | _ :: rest => containsSub rest pat

/-- Embedding of the Python expression pat in s (substring containment). -/
def strContains (s pat : String) : Bool := containsSub s.data pat.data

/-- Embedding of the Python str.lower() method (ASCII case folding, which
is all the source compares). -/
def pyLower (s : String) : String := ⟨s.data.map Char.toLower⟩

/-- Whitespace predicate used by the embedding of Python str.strip(). -/
def isSpaceChar (c : Char) : Bool := c == ' ' || c == '\t' || c == '\n' || c == '\r'

/-- Embedding of the Python str.strip() method. -/
def pyStrip (s : String) : String :=
  ⟨(((s.data.dropWhile isSpaceChar).reverse).dropWhile isSpaceChar).reverse⟩

/-- Outcome of one external call: a normal return value, or a raised
exception carrying its message. -/
inductive StepOutcome (α : Type) where
  | ok (val : α)
  | exn (msg : String)
deriving DecidableEq, Repr

/-- Outcome of one vision-model request in computer_use_action: either the
response text of the model, or an exception raised while capturing the
screenshot or calling the API (browser_controller.py lines 179-248). -/
inductive VisionOutcome where
  | response (text : String)
  | exn (msg : String)
deriving DecidableEq, Repr

/-- Result dictionary returned by BrowserController.computer_use_action. -/
structure ActionResult where
  success : Bool
  response : Option String := none
  error : Option String := none
deriving DecidableEq, Repr

/-- Affirmative keyword set scanned over the model response for detection
calls (browser_controller.py lines 229-231). -/
def affirmative_keywords : List String :=
  ["found", "see", "visible", "located", "present", "identified"]

/-- Embedding of the element_found check in computer_use_action: some
affirmative keyword occurs in the lowercased response text. -/
def element_found (response_text : String) : Bool :=
  affirmative_keywords.any fun keyword => strContains (pyLower response_text) keyword

/-- Embedding of BrowserController.computer_use_action
(browser_controller.py lines 177-248).  If the action description contains
the word click, the call is treated as a click action and the result is
success := true with the response echoed; otherwise it is element
detection and success is the affirmative-keyword scan of the response.
Any exception is caught and reported as success := false. -/
def computer_use_action (action_description : String) (vision : VisionOutcome) : ActionResult :=
  match vision with
  | .exn e => { success := false, error := some e }
  | .response response_text =>
    if strContains (pyLower action_description) "click" then
      { success := true, response := some ("Click action processed: " ++ response_text) }
    else
      { success := element_found response_text, response := some response_text }

/-- Prompt built by BrowserController.verify_text_present for the joined
check (browser_controller.py line 457); quotes of the original are
dropped, the wording is otherwise kept, and it contains no click token. -/
def joined_prompt : String :=
  "Look at this Pine Ridge application screenshot. Can you see any text that indicates the user has joined a channel? Look for text like joined, joinState: joined, or similar status indicators. If you see it, respond with FOUND and describe what you see."

/-- Prompt built by BrowserController.verify_text_present for any other
text (browser_controller.py line 459). -/
def generic_text_prompt (text : String) : String :=
  "Look at this screenshot carefully. Can you see the text " ++ text ++ " anywhere on the screen? If you see it, respond with FOUND and describe where it is located."

/-- Embedding of BrowserController.verify_text_present
(browser_controller.py lines 454-462): builds the prompt and returns the
success flag of the computer_use_action call. -/
def verify_text_present (text : String) (vision : VisionOutcome) : Bool :=
  let prompt := if pyLower text = "joined" then joined_prompt else generic_text_prompt text
  (computer_use_action prompt vision).success

/-- Result dictionary of a role workflow
(execute_publisher_workflow / execute_subscriber_workflow). -/
structure WorkflowResult where
  success : Bool
  error : Option String := none
  message : Option String := none
  screenshot_path : Option String := none
deriving DecidableEq, Repr

/-- External answers consumed by ChromePublisher.execute_publisher_workflow
(chrome_publisher.py lines 20-146): the launch outcome, the Join
find-and-click, the vision response for the joined check, the Publish
dropdown find-and-click, whether any dropdown-option selector clicked, and
the screenshot path; body_exn records an exception raised in the workflow
body outside the inner handlers, which the outer except converts into a
structured failure with an error screenshot. -/
structure PublisherEnv where
  body_exn : Option String
  error_screenshot : String
  launch_ok : Bool
  join_click : StepOutcome Unit
  joined_vision : VisionOutcome
  publish_click : StepOutcome Unit
  option_clicked : Bool
  screenshot : String
deriving DecidableEq, Repr

/-- Embedding of ChromePublisher.execute_publisher_workflow
(chrome_publisher.py lines 20-146).  The stop-controls check of step 8 is
log-only in the source (neither branch alters the returned dictionary), so
it does not appear in the result. -/
def execute_publisher_workflow (env : PublisherEnv) : WorkflowResult :=
  match env.body_exn with
  | some e => { success := false, error := some e, screenshot_path := some env.error_screenshot }
  | none =>
    if env.launch_ok = false then
      { success := false, error := some "Failed to launch Chrome browser" }
    else match env.join_click with
    | .exn e => { success := false, error := some ("Failed to find/click Join Channel button: " ++ e) }
    | .ok _ =>
      if verify_text_present "joined" env.joined_vision = false then
        { success := false, error := some "Join state not confirmed" }
      else match env.publish_click with
      | .exn e => { success := false, error := some ("Failed to find/click Publish dropdown: " ++ e) }
      | .ok _ =>
        if env.option_clicked = false then
          { success := false, error := some "Could not find Publish Audio + Video option in dropdown" }
        else
          { success := true
            message := some "Chrome publisher is ready and publishing audio"
            screenshot_path := some env.screenshot }

/-- External answers consumed by SafariSubscriber.execute_subscriber_workflow
(safari_subscriber.py lines 20-78). -/
structure SubscriberEnv where
  body_exn : Option String
  error_screenshot : String
  launch_ok : Bool
  join_click : StepOutcome Unit
  joined_vision : VisionOutcome
  screenshot : String
deriving DecidableEq, Repr

/-- Embedding of SafariSubscriber.execute_subscriber_workflow
(safari_subscriber.py lines 20-78): launch, Join click, joined check, then
a fixed settle wait and the verification screenshot. -/
def execute_subscriber_workflow (env : SubscriberEnv) : WorkflowResult :=
  match env.body_exn with
  | some e => { success := false, error := some e, screenshot_path := some env.error_screenshot }
  | none =>
    if env.launch_ok = false then
      { success := false, error := some "Failed to launch Safari browser" }
    else match env.join_click with
    | .exn e => { success := false, error := some ("Failed to find/click Join Channel button: " ++ e) }
    | .ok _ =>
      if verify_text_present "joined" env.joined_vision = false then
        { success := false, error := some "Join state not confirmed" }
      else
        { success := true
          message := some "Safari subscriber is ready to receive audio"
          screenshot_path := some env.screenshot }

/-- One event on the operator input stream: a line of text, a keyboard
interrupt, or end of file. -/
inductive InEv where
  | line (s : String)
  | interrupt
  | eof
deriving DecidableEq, Repr

/-- Embedding of utils.verification.VerificationResult: a pass flag and a
free-text comment (the timestamp is wall-clock only and carries no
logic). -/
structure VerificationResult where
  passed : Bool
  comment : String := ""
deriving DecidableEq, Repr

/-- Embedding of ManualVerificationInterface.get_verification_result
(verification.py lines 41-104) as a function of the operator input
stream.  Each loop iteration consumes one choice line; p and f consume a
second comment line; r and unrecognized input re-enter the loop; q
returns a failed result; KeyboardInterrupt and EOFError anywhere inside
the loop body are caught and mapped to failed results with the
corresponding comment.  none models an input stream that ends without the
prompt ever being answered (the Python call would block forever). -/
def get_verification_result : List InEv → Option VerificationResult
  | [] => none
  | .interrupt :: _ => some { passed := false, comment := "Test interrupted by user" }
  | .eof :: _ => some { passed := false, comment := "Input stream closed" }
  | .line s :: rest =>
    let choice := pyStrip (pyLower s)
    if choice = "p" then
      match rest with
      | [] => none
      | .interrupt :: _ => some { passed := false, comment := "Test interrupted by user" }
      | .eof :: _ => some { passed := false, comment := "Input stream closed" }
      | .line c :: _ => some { passed := true, comment := pyStrip c }
    else if choice = "f" then
      match rest with
      | [] => none
      | .interrupt :: _ => some { passed := false, comment := "Test interrupted by user" }
      | .eof :: _ => some { passed := false, comment := "Input stream closed" }
      | .line c :: _ => some { passed := false, comment := pyStrip c }
    else if choice = "r" then get_verification_result rest
    else if choice = "q" then some { passed := false, comment := "Test aborted by user" }
    else get_verification_result rest

/-- Embedding of ManualVerificationInterface.prompt_for_retry
(verification.py lines 119-136): y/yes answers true, n/no answers false,
anything else re-prompts, KeyboardInterrupt and EOFError answer false. -/
def prompt_for_retry : List InEv → Option Bool
  | [] => none
  | .interrupt :: _ => some false
  | .eof :: _ => some false
  | .line s :: rest =>
    let choice := pyStrip (pyLower s)
    if choice = "y" ∨ choice = "yes" then some true
    else if choice = "n" ∨ choice = "no" then some false
    else prompt_for_retry rest

/-- Embedding of test_executor.TestResult: pass flag, comment and error
text (execution time and timestamp are wall-clock only). -/
structure TestResult where
  passed : Bool
  comment : String := ""
  error : String := ""
deriving DecidableEq, Repr

/-- Observable calls made by TestExecutor.execute_c107928, in order. -/
inductive ExecEvent where
  | publisherCall
  | subscriberCall
  | positionWindows
  | verificationCall
  | cleanup
deriving DecidableEq, Repr

/-- Embedding of TestExecutor.execute_c107928 (test_executor.py lines
39-101).  Inputs are the outcomes of the three awaited collaborator calls
(each either a returned value or a raised exception); the output is the
returned TestResult paired with the ordered trace of calls the method
performed.  A publisher or subscriber result with success false triggers
an early return (lines 51-54 and 60-63); an exception anywhere in the try
body is caught at line 93, runs cleanup_browsers, and returns a failed
TestResult; the straight-line path positions windows, runs manual
verification, runs cleanup_browsers and returns the verification
verdict. -/
def execute_c107928 (pub sub : StepOutcome WorkflowResult)
    (ver : StepOutcome VerificationResult) : TestResult × List ExecEvent :=
  match pub with
  | .exn e =>
    ({ passed := false, error := e }, [.publisherCall, .cleanup])
  | .ok publisher_result =>
    if publisher_result.success = false then
      ({ passed := false,
         error := "Chrome publisher setup failed: " ++ publisher_result.error.getD "Unknown error" },
       [.publisherCall])
    else match sub with
    | .exn e =>
      ({ passed := false, error := e }, [.publisherCall, .subscriberCall, .cleanup])
    | .ok subscriber_result =>
      if subscriber_result.success = false then
        ({ passed := false,
           error := "Safari subscriber setup failed: " ++ subscriber_result.error.getD "Unknown error" },
         [.publisherCall, .subscriberCall])
      else match ver with
      | .exn e =>
        ({ passed := false, error := e },
         [.publisherCall, .subscriberCall, .positionWindows, .verificationCall, .cleanup])
      | .ok verification_result =>
        ({ passed := verification_result.passed, comment := verification_result.comment },
         [.publisherCall, .subscriberCall, .positionWindows, .verificationCall, .cleanup])

/-- Loop of TestExecutor.retry_test_execution (test_executor.py lines
162-182), indexed by the remaining iteration count (fuel) and the current
attempt index; results gives the TestResult of each attempt of
execute_c107928 and ans the operator answer to each retry prompt.  The
first component none models the final return statement reading the local
variable result when the loop body never ran (UnboundLocalError); the
second component counts attempts actually executed.  The guard 0 < fuel
is the source test attempt < max_retries - 1. -/
def retryAux (results : Nat → TestResult) (ans : Nat → Bool) :
    Nat → Nat → Option TestResult × Nat
  | 0, attempt => (none, attempt)
  | fuel + 1, attempt =>
    let result := results attempt
    if result.passed then (some result, attempt + 1)
    else if 0 < fuel then
      if ans attempt then retryAux results ans fuel (attempt + 1)
      else (some result, attempt + 1)
    else (some result, attempt + 1)

/-- Embedding of TestExecutor.retry_test_execution (test_executor.py lines
162-182): run the loop from attempt 0 with max_retries iterations of
fuel. -/
def retry_test_execution (results : Nat → TestResult) (ans : Nat → Bool)
    (max_retries : Nat) : Option TestResult × Nat :=
  retryAux results ans max_retries 0

/-- State owned by one BrowserController that close_browser touches:
whether self.driver holds a WebDriver object, and the is_running flag
(browser_controller.py lines 37-39 and 464-485). -/
structure SessionState where
  driver : Option Unit
  is_running : Bool
deriving DecidableEq, Repr

/-- Embedding of BrowserController.close_browser (browser_controller.py
lines 464-485).  quit_raises records whether the driver.quit() call
raises on this invocation.  The method body is wrapped in try/except, so
the second component (whether an exception propagates to the caller) is
always false; when quit succeeds is_running is cleared and self.driver is
left assigned; when quit raises, the except block only force-kills
external processes and the session state is unchanged. -/
def close_browser (s : SessionState) (quit_raises : Bool) : SessionState × Bool :=
  match s.driver with
  | none => (s, false)
  | some _ =>
    if quit_raises then (s, false)
    else ({ s with is_running := false }, false)

/-- Fields read by PuppeteerMCPClient.assess_connection_quality from one
probe-state dictionary via .get with defaults (puppeteer_mcp_client.py
lines 1319-1349); a field absent from the dictionary is its default. -/
structure ProbeState where
  connected : Bool := false
  streams : Nat := 0
  hasLocalStream : Bool := false
  getUserMediaCalled : Bool := false
  connectionState : Option String := none
  peerConnectionState : Option String := none
deriving DecidableEq, Repr

/-- Media-activity disjunction computed for each side in
assess_connection_quality (puppeteer_mcp_client.py lines 1319-1331). -/
def probe_connected (st : ProbeState) : Bool :=
  st.connected || decide (0 < st.streams) || st.hasLocalStream || st.getUserMediaCalled

/-- Connecting-state disjunction computed for each side in
assess_connection_quality (puppeteer_mcp_client.py lines 1342-1349). -/
def probe_connecting (st : ProbeState) : Bool :=
  (st.connectionState == some "connecting") || (st.peerConnectionState == some "connecting")

/-- Keyword scan of one console-log entry used as a last-resort fair
signal (puppeteer_mcp_client.py lines 1357-1363). -/
def webrtc_log_keyword (text : String) : Bool :=
  strContains (pyLower text) "stream" || strContains (pyLower text) "webrtc" ||
  strContains (pyLower text) "media" || strContains (pyLower text) "connection" ||
  strContains (pyLower text) "notifier"

/-- Scan of the last 20 retained console-log entries
(puppeteer_mcp_client.py lines 1356-1364); the Python slice [-20:] is the
drop of all but the last 20. -/
def webrtc_activity (console_logs : List String) : Bool :=
  (console_logs.drop (console_logs.length - 20)).any webrtc_log_keyword

/-- Embedding of PuppeteerMCPClient.assess_connection_quality
(puppeteer_mcp_client.py lines 1312-1371): both sides with media activity
give good; one side gives fair; otherwise a connecting state on either
side gives fair; otherwise WebRTC keywords in the recent console logs
give fair; otherwise poor. -/
def assess_connection_quality (console_logs : List String)
    (publisher_state subscriber_state : ProbeState) : String :=
  let publisher_connected := probe_connected publisher_state
  let subscriber_connected := probe_connected subscriber_state
  if publisher_connected && subscriber_connected then "good"
  else if publisher_connected || subscriber_connected then "fair"
  else
    let publisher_connecting := probe_connecting publisher_state
    let subscriber_connecting := probe_connecting subscriber_state
    if publisher_connecting || subscriber_connecting then "fair"
    else if webrtc_activity console_logs then "fair"
    else "poor"

/-- Value of one inner page probe in the state-probe functions: an inner
try/except treats a raised exception as an unfound or default signal. -/
def stepBool : StepOutcome Bool → Bool
  | .ok b => b
  | .exn _ => false

/-- Selector list of strategy 1 of verify_joined_state
(puppeteer_mcp_client.py lines 1055-1062). -/
def joined_indicators : List String :=
  ["text=joined", "[data-state=joined]", ".joined-state", ".channel-joined",
   "button:has-text(Leave)", "button:has-text(Publish)"]

/-- Page observations consumed by PuppeteerMCPClient.verify_joined_state
(puppeteer_mcp_client.py lines 1048-1117): the visibility outcome of each
indicator locator of joined_indicators in order, the channel-display and
publish-button visibility checks, the visible-button count evaluation,
and outer_exn for an exception raised outside the inner handlers. -/
structure JoinedProbe where
  indicator_visible : List (StepOutcome Bool)
  channel_display : StepOutcome Bool
  publish_button : StepOutcome Bool
  button_count : StepOutcome Nat
  outer_exn : Option String
deriving DecidableEq, Repr

/-- Embedding of PuppeteerMCPClient.verify_joined_state
(puppeteer_mcp_client.py lines 1048-1117).  Strategies 1 to 4 each return
True when their probe is positive (a raised inner probe is caught and
skipped); strategy 5 defaults to True; the outer except also returns
True. -/
def verify_joined_state (p : JoinedProbe) : Bool :=
  if p.outer_exn.isSome then true
  else if p.indicator_visible.any stepBool then true
  else if stepBool p.channel_display then true
  else if stepBool p.publish_button then true
  else if (match p.button_count with | .ok n => decide (20 < n) | .exn _ => false) then true
  else true

/-- Keyword list scanned over console logs by verify_audio_publishing
(puppeteer_mcp_client.py lines 1139-1143). -/
def publishing_keywords : List String :=
  ["publish", "publishing", "stream", "streaming", "audio", "video",
   "media", "webrtc", "peerconnection", "offer", "answer", "ice",
   "getUserMedia", "localStream", "track", "sender", "connected"]

/-- Keyword scan of one log entry in verify_audio_publishing. -/
def publishing_log_keyword (text : String) : Bool :=
  publishing_keywords.any fun keyword => strContains (pyLower text) keyword

/-- WebRTC page state read by strategy 2 of verify_audio_publishing
(puppeteer_mcp_client.py lines 1162-1199). -/
structure WebrtcState where
  hasLocalStream : Bool := false
  hasRemoteStream : Bool := false
  peerConnectionState : Option String := none
  localTracks : Nat := 0
  remoteTracks : Nat := 0
  getUserMediaCalled : Bool := false
deriving DecidableEq, Repr

/-- UI indicators read by strategy 3 of verify_audio_publishing
(puppeteer_mcp_client.py lines 1209-1238). -/
structure UiIndicators where
  hasStopButton : Bool := false
  hasPublishingText : Bool := false
  hasStreamText : Bool := false
  hasLiveText : Bool := false
  buttonTexts : List String := []
deriving DecidableEq, Repr

/-- Network state read by strategy 4 of verify_audio_publishing
(puppeteer_mcp_client.py lines 1246-1276). -/
structure NetworkState where
  hasDataChannels : Bool := false
  hasActiveConnections : Bool := false
deriving DecidableEq, Repr

/-- Page observations consumed by PuppeteerMCPClient.verify_audio_publishing
(puppeteer_mcp_client.py lines 1119-1287): the retained console-log texts,
the page-console-log evaluation (raised outside any inner handler, so a
failure there reaches the outer except), and the three inner probes with
their own handlers; outer_exn models any other exception in the body. -/
structure PublishProbe where
  console_logs : List String
  page_logs : StepOutcome (List String)
  webrtc_state : StepOutcome WebrtcState
  ui_indicators : StepOutcome UiIndicators
  network_state : StepOutcome NetworkState
  outer_exn : Option String
deriving DecidableEq, Repr

/-- Embedding of PuppeteerMCPClient.verify_audio_publishing
(puppeteer_mcp_client.py lines 1119-1287).  Keyword hits in the last 50
retained or page console logs, WebRTC media activity, stop/unpublish UI
indicators, or active connections each return True; the final fallback of
strategy 5 returns True, and the outer except returns True. -/
def verify_audio_publishing (p : PublishProbe) : Bool :=
  if p.outer_exn.isSome then true
  else match p.page_logs with
  | .exn _ => true
  | .ok page_console_logs =>
    let recent_console_logs := p.console_logs.drop (p.console_logs.length - 50)
    if recent_console_logs.any publishing_log_keyword then true
    else if page_console_logs.any publishing_log_keyword then true
    else if (match p.webrtc_state with
             | .ok st => st.hasLocalStream || decide (0 < st.localTracks) || st.getUserMediaCalled
             | .exn _ => false) then true
    else if (match p.ui_indicators with
             | .ok ui =>
               ui.buttonTexts.any (fun text =>
                 ["stop", "unpublish", "end", "disconnect"].any fun keyword =>
                   strContains (pyLower text) keyword) ||
               ui.hasStopButton || ui.hasPublishingText || ui.hasStreamText || ui.hasLiveText
             | .exn _ => false) then true
    else if (match p.network_state with
             | .ok ns => ns.hasDataChannels || ns.hasActiveConnections
             | .exn _ => false) then true
    else true

theorem retryAux_pos (results : Nat → TestResult) (ans : Nat → Bool) :
    ∀ fuel attempt, 0 < fuel →
      ∃ n r, retryAux results ans fuel attempt = (some r, attempt + n) ∧
        1 ≤ n ∧ n ≤ fuel ∧ r = results (attempt + n - 1) := by
  intro fuel
  induction fuel with
  | zero => intro attempt h; omega
  | succ fuel ih =>
    intro attempt _
    by_cases hp : (results attempt).passed
    · refine ⟨1, results attempt, ?_, le_refl 1, by omega, by simp⟩
      simp [retryAux, hp]
    · by_cases hf : 0 < fuel
      · by_cases ha : ans attempt
        · obtain ⟨n, r, heq, h1, h2, hr⟩ := ih (attempt + 1) hf
          refine ⟨n + 1, r, ?_, by omega, by omega, ?_⟩
          · rw [show attempt + (n + 1) = attempt + 1 + n by omega]
            simpa [retryAux, hp, hf, ha] using heq
          · rw [hr]; congr 1; omega
        · refine ⟨1, results attempt, ?_, le_refl 1, by omega, by simp⟩
          simp [retryAux, hp, hf, ha]
      · refine ⟨1, results attempt, ?_, le_refl 1, by omega, by simp⟩
        simp [retryAux, hp, hf]

/-- C5: for max_retries at least 1, retry_test_execution executes at most
max_retries attempts, and when no executed attempt passes, the returned
TestResult is a failure. -/
theorem retry_test_execution_bounded (results : Nat → TestResult) (ans : Nat → Bool)
    (max_retries : Nat) (h : 1 ≤ max_retries) :
    (retry_test_execution results ans max_retries).2 ≤ max_retries ∧
    ∃ r, (retry_test_execution results ans max_retries).1 = some r ∧
      ((∀ i, i < max_retries → (results i).passed = false) → r.passed = false) := by
  obtain ⟨n, r, heq, h1, h2, hr⟩ := retryAux_pos results ans max_retries 0 h
  unfold retry_test_execution
  rw [heq]
  refine ⟨by simpa using h2, r, rfl, ?_⟩
  intro hall
  rw [hr]
  exact hall _ (by omega)

/-- Witness for C5 at max_retries = 1 with an always-failing attempt. -/
theorem retry_test_execution_bounded_witness :
    (retry_test_execution (fun _ => { passed := false }) (fun _ => true) 1).2 ≤ 1 ∧
    ∃ r, (retry_test_execution (fun _ => { passed := false }) (fun _ => true) 1).1 = some r ∧
      ((∀ i, i < 1 → ((fun _ => ({ passed := false } : TestResult)) i).passed = false) →
        r.passed = false) :=
  retry_test_execution_bounded (fun _ => { passed := false }) (fun _ => true) 1 (by decide)

/-- C10: retry_test_execution yields a TestResult exactly when max_retries
is at least 1; with max_retries = 0 the loop body never runs and the
final return reads the unbound local result, modeled as none. -/
theorem retry_zero_returns_none (results : Nat → TestResult) (ans : Nat → Bool)
    (max_retries : Nat) :
    (retry_test_execution results ans max_retries).1 = none ↔ max_retries = 0 := by
  constructor
  · intro h
    by_contra hne
    obtain ⟨n, r, heq, _, _, _⟩ :=
      retryAux_pos results ans max_retries 0 (Nat.pos_of_ne_zero hne)
    unfold retry_test_execution at h
    rw [heq] at h
    simp at h
  · rintro rfl; rfl

/-- C8: close_browser never lets an exception propagate to the caller,
and invoking it again after a close whose driver.quit succeeded leaves
the session state unchanged and again reports no error. -/
theorem close_browser_idempotent (s : SessionState) (q1 q2 : Bool) :
    (close_browser s q1).2 = false ∧
    close_browser (close_browser s false).1 q2 = ((close_browser s false).1, false) := by
  rcases s with ⟨d, r⟩
  cases d <;> cases q1 <;> cases q2 <;> simp [close_browser]

/-- C9: the state probes verify_joined_state and verify_audio_publishing
return true on every input, whatever the page reports and whether or not
any probe raises, so neither can make a caller fail. -/
theorem state_probes_never_fail (pj : JoinedProbe) (pa : PublishProbe) :
    verify_joined_state pj = true ∧ verify_audio_publishing pa = true := by
  constructor
  · simp [verify_joined_state]
  · rcases pa with ⟨cl, pl, ws, ui, ns, oe⟩
    cases pl <;> simp [verify_audio_publishing]

/-- C6: assess_connection_quality returns good exactly when both sides
show media activity; fair exactly when not both do but one does, or a
side is in a connecting state, or the recent console logs hold a WebRTC
keyword; poor exactly when none of these hold; and in particular
publisher media activity with no subscriber media activity gives fair. -/
theorem assess_connection_quality_classification (console_logs : List String)
    (p s : ProbeState) :
    (assess_connection_quality console_logs p s = "good" ↔
      probe_connected p = true ∧ probe_connected s = true) ∧
    (assess_connection_quality console_logs p s = "fair" ↔
      (¬(probe_connected p = true ∧ probe_connected s = true) ∧
       (probe_connected p = true ∨ probe_connected s = true ∨
        probe_connecting p = true ∨ probe_connecting s = true ∨
        webrtc_activity console_logs = true))) ∧
    (assess_connection_quality console_logs p s = "poor" ↔
      (probe_connected p = false ∧ probe_connected s = false ∧
       probe_connecting p = false ∧ probe_connecting s = false ∧
       webrtc_activity console_logs = false)) ∧
    (probe_connected p = true → probe_connected s = false →
      assess_connection_quality console_logs p s = "fair") := by
  cases hp : probe_connected p <;> cases hs : probe_connected s <;>
    cases hpc : probe_connecting p <;> cases hsc : probe_connecting s <;>
    cases hw : webrtc_activity console_logs <;>
    simp [assess_connection_quality, hp, hs, hpc, hsc, hw]

/-- Witness for C6: publisher shows media activity, subscriber does not,
classification is fair. -/
theorem assess_connection_quality_witness :
    assess_connection_quality [] ⟨true, 0, false, false, none, none⟩
      ⟨false, 0, false, false, none, none⟩ = "fair" :=
  (assess_connection_quality_classification [] ⟨true, 0, false, false, none, none⟩
      ⟨false, 0, false, false, none, none⟩).2.2.2 (by decide) (by decide)

/-- C7: when the publisher workflow returns a failure result the
subscriber workflow is never started and the attempt records the
publisher error; and whenever the subscriber workflow is started, the
publisher workflow had completed with success. -/
theorem publisher_gates_subscriber (pub sub : StepOutcome WorkflowResult)
    (ver : StepOutcome VerificationResult) :
    (∀ p, pub = .ok p → p.success = false →
      ExecEvent.subscriberCall ∉ (execute_c107928 pub sub ver).2 ∧
      (execute_c107928 pub sub ver).1.passed = false ∧
      (execute_c107928 pub sub ver).1.error =
        "Chrome publisher setup failed: " ++ p.error.getD "Unknown error") ∧
    (ExecEvent.subscriberCall ∈ (execute_c107928 pub sub ver).2 →
      ∃ p, pub = .ok p ∧ p.success = true) := by
  cases pub with
  | exn e =>
    constructor
    · intro p hp; cases hp
    · intro hmem
      simp [execute_c107928] at hmem
  | ok p =>
    cases hps : p.success
    · constructor
      · intro p2 hp2 _
        injection hp2 with h
        subst h
        refine ⟨?_, ?_, ?_⟩ <;> simp [execute_c107928, hps]
      · intro hmem
        exfalso
        simp [execute_c107928, hps] at hmem
    · constructor
      · intro p2 hp2 hfail
        injection hp2 with h
        subst h
        rw [hps] at hfail
        cases hfail
      · intro _
        exact ⟨p, rfl, hps⟩

/-- Witness for C7: a concrete failed publisher result; no subscriber
call appears in the trace and the publisher error is recorded. -/
theorem publisher_gates_subscriber_witness :
    ExecEvent.subscriberCall ∉
      (execute_c107928 (.ok { success := false, error := some "Failed to launch Chrome browser" })
        (.ok { success := true }) (.ok { passed := true })).2 ∧
    (execute_c107928 (.ok { success := false, error := some "Failed to launch Chrome browser" })
        (.ok { success := true }) (.ok { passed := true })).1.error =
      "Chrome publisher setup failed: Failed to launch Chrome browser" := by
  have h := (publisher_gates_subscriber
    (.ok { success := false, error := some "Failed to launch Chrome browser" })
    (.ok { success := true }) (.ok { passed := true })).1 _ rfl rfl
  exact ⟨h.1, h.2.2.trans (by decide)⟩

/-- Structured early-return failure of an attempt: the publisher result
reports failure, or the publisher succeeded and the subscriber result
reports failure (test_executor.py lines 51-54 and 60-63). -/
def early_structured_failure (pub sub : StepOutcome WorkflowResult) : Prop :=
  (∃ p, pub = .ok p ∧ p.success = false) ∨
  (∃ p s, pub = .ok p ∧ p.success = true ∧ sub = .ok s ∧ s.success = false)

/-- C1 (amended): cleanup_browsers is invoked before the TestResult is
returned on the success path and on the exception path, but not on the
structured publisher-failure or subscriber-failure early returns: the
trace holds a cleanup call exactly when the attempt is not a structured
early-return failure. -/
theorem cleanup_trace_characterization (pub sub : StepOutcome WorkflowResult)
    (ver : StepOutcome VerificationResult) :
    ExecEvent.cleanup ∈ (execute_c107928 pub sub ver).2 ↔
      ¬ early_structured_failure pub sub := by
  cases pub with
  | exn e => simp [execute_c107928, early_structured_failure]
  | ok p =>
    cases hps : p.success
    · simp [execute_c107928, early_structured_failure, hps]
    · cases sub with
      | exn e => simp [execute_c107928, early_structured_failure, hps]
      | ok s =>
        cases hss : s.success
        · simp [execute_c107928, early_structured_failure, hps, hss]
        · cases ver <;> simp [execute_c107928, early_structured_failure, hps, hss]

/-- C1 counterexample: an attempt whose publisher result reports failure
returns its TestResult without any cleanup call in the trace. -/
theorem cleanup_skipped_on_publisher_failure :
    ExecEvent.cleanup ∉
      (execute_c107928 (.ok { success := false, error := some "Failed to launch Chrome browser" })
        (.ok { success := true }) (.ok { passed := true })).2 := by decide

/-- C2 counterexample: a run whose post-join vision response carries no
affirmative keyword, so the check cannot positively determine the joined
state; both role workflows return the failure Join state not confirmed
instead of proceeding. -/
theorem join_gate_counterexample :
    element_found "unable to confirm join status" = false ∧
    execute_publisher_workflow
      ⟨none, "err.png", true, .ok (), .response "unable to confirm join status",
        .ok (), true, "pub.png"⟩ =
      { success := false, error := some "Join state not confirmed" } ∧
    execute_subscriber_workflow
      ⟨none, "err.png", true, .ok (), .response "unable to confirm join status", "sub.png"⟩ =
      { success := false, error := some "Join state not confirmed" } := by decide

/-- C2 (amended): after a successful launch and Join click, a role
workflow proceeds with its remaining steps exactly when the post-join
keyword check of verify_text_present reports positive; when the check
reports negative the workflow returns the failure Join state not
confirmed rather than proceeding. -/
theorem join_gate_behavior (envP : PublisherEnv) (envS : SubscriberEnv)
    (hbP : envP.body_exn = none) (hlP : envP.launch_ok = true)
    (hjP : envP.join_click = .ok ())
    (hbS : envS.body_exn = none) (hlS : envS.launch_ok = true)
    (hjS : envS.join_click = .ok ()) :
    (verify_text_present "joined" envP.joined_vision = false →
      execute_publisher_workflow envP =
        { success := false, error := some "Join state not confirmed" }) ∧
    (verify_text_present "joined" envP.joined_vision = true →
      execute_publisher_workflow envP =
        (match envP.publish_click with
         | .exn e =>
           { success := false,
             error := some ("Failed to find/click Publish dropdown: " ++ e) }
         | .ok _ =>
           if envP.option_clicked = false then
             { success := false,
               error := some "Could not find Publish Audio + Video option in dropdown" }
           else
             { success := true,
               message := some "Chrome publisher is ready and publishing audio",
               screenshot_path := some envP.screenshot })) ∧
    (verify_text_present "joined" envS.joined_vision = false →
      execute_subscriber_workflow envS =
        { success := false, error := some "Join state not confirmed" }) ∧
    (verify_text_present "joined" envS.joined_vision = true →
      execute_subscriber_workflow envS =
        { success := true,
          message := some "Safari subscriber is ready to receive audio",
          screenshot_path := some envS.screenshot }) := by
  refine ⟨?_, ?_, ?_, ?_⟩ <;> intro hv
  · simp [execute_publisher_workflow, hbP, hlP, hjP, hv]
  · simp [execute_publisher_workflow, hbP, hlP, hjP, hv]
  · simp [execute_subscriber_workflow, hbS, hlS, hjS, hv]
  · simp [execute_subscriber_workflow, hbS, hlS, hjS, hv]

/-- Witness for C2 (amended) at a concrete environment whose vision
response contains the affirmative keyword FOUND: the check is positive
and both workflows proceed to their success results. -/
theorem join_gate_behavior_witness :
    execute_publisher_workflow
      ⟨none, "err.png", true, .ok (), .response "FOUND: the user is joined",
        .ok (), true, "pub.png"⟩ =
      { success := true,
        message := some "Chrome publisher is ready and publishing audio",
        screenshot_path := some "pub.png" } ∧
    execute_subscriber_workflow
      ⟨none, "err.png", true, .ok (), .response "FOUND: the user is joined", "sub.png"⟩ =
      { success := true,
        message := some "Safari subscriber is ready to receive audio",
        screenshot_path := some "sub.png" } := by
  have h := join_gate_behavior
    ⟨none, "err.png", true, .ok (), .response "FOUND: the user is joined",
      .ok (), true, "pub.png"⟩
    ⟨none, "err.png", true, .ok (), .response "FOUND: the user is joined", "sub.png"⟩
    rfl rfl rfl rfl rfl rfl
  refine ⟨?_, h.2.2.2 (by decide)⟩
  have h2 := h.2.1 (by decide)
  rw [h2]
  decide

/-- C3 counterexample: a click instruction whose vision response denies
that the target exists (it carries no affirmative keyword) still yields
success := true from computer_use_action. -/
theorem computer_use_action_click_counterexample :
    (computer_use_action "Click on the Join Channel button"
      (.response "no such button anywhere on this page")).success = true ∧
    element_found "no such button anywhere on this page" = false := by decide

/-- C3 (amended): for an instruction containing the word click,
computer_use_action reports success unconditionally, whatever the model
response says; only an exception in the underlying call yields a
non-success result. -/
theorem computer_use_action_click_behavior (action_description response_text e : String)
    (hclick : strContains (pyLower action_description) "click" = true) :
    (computer_use_action action_description (.response response_text)).success = true ∧
    (computer_use_action action_description (.exn e)).success = false := by
  simp [computer_use_action, hclick]

/-- Witness for C3 (amended) at a concrete click instruction and a
denying response. -/
theorem computer_use_action_click_behavior_witness :
    (computer_use_action "Click on the Allow button"
      (.response "nothing like that exists")).success = true ∧
    (computer_use_action "Click on the Allow button" (.exn "api down")).success = false :=
  computer_use_action_click_behavior "Click on the Allow button"
    "nothing like that exists" "api down" (by decide)

/-- C4 counterexample: an interrupted verification prompt yields an
ordinary failed VerificationResult, and an attempt carrying that verdict
feeds the retry loop like any other failure: with a budget of three
attempts and an operator answering yes at the retry prompt, all three
attempts execute, so the interrupted verification did not terminate the
run. -/
theorem verification_interrupt_counterexample :
    get_verification_result [.interrupt] =
      some { passed := false, comment := "Test interrupted by user" } ∧
    (execute_c107928 (.ok { success := true }) (.ok { success := true })
      (.ok { passed := false, comment := "Test interrupted by user" })).1.passed = false ∧
    (retry_test_execution
      (fun _ => (execute_c107928 (.ok { success := true }) (.ok { success := true })
        (.ok { passed := false, comment := "Test interrupted by user" })).1)
      (fun _ => (prompt_for_retry [.line "y"]).getD false) 3).2 = 3 := by decide

/-- C4 (amended): a keyboard interrupt or a closed input stream at the
verification prompt yields an ordinary Fail VerificationResult with the
corresponding comment (there is no distinct Abort outcome), and the same
events at the retry prompt answer no-retry. -/
theorem verification_interrupt_outcomes (evs : List InEv) :
    get_verification_result (.interrupt :: evs) =
      some { passed := false, comment := "Test interrupted by user" } ∧
    get_verification_result (.eof :: evs) =
      some { passed := false, comment := "Input stream closed" } ∧
    prompt_for_retry (.interrupt :: evs) = some false ∧
    prompt_for_retry (.eof :: evs) = some false :=
  ⟨rfl, rfl, rfl, rfl⟩
